import Mathlib

/-!
Shallow embedding of the habits-tracker CLI persistence layer
(src/habits_tracker/cli.py) together with the fragment of the runtime
environment it drives: the sqlite3 engine (restricted to the statement
shapes the program can produce) and pydantic's field coercion.

Modelling conventions:
* Python strings are Lean `String`s; Python values crossing the
  pydantic/sqlite boundary are `PyValue`; values stored by sqlite are
  `SqlValue`.
* A sqlite database file is a `DB`: the catalog of created tables plus
  the rows of the `habits` table (the only table any executed statement
  ever touches, since the schema script fails before creating the other
  two -- see `create_tables`).
* Python exceptions are `PyErr`.  The inductive also carries the error
  class names used by the specification document (`DuplicateHabitError`,
  `MalformedRecordError`, `StorageInitError`, `StorageQueryError`) so
  that spec-level sentences about them can be stated; the code itself
  defines none of those classes and only ever produces the sqlite3 and
  pydantic constructors.
* A statement that fails leaves the database unchanged (a single failed
  sqlite statement has no effect); operations therefore return the
  post-state together with an optional raised exception.
-/

namespace HabitsTracker

/-- Exception classes.  The first three are the classes actually raised by
the program's dependencies (sqlite3, pydantic); the last four are the
error taxonomy names of the specification, which the source never
defines nor raises. -/
inductive PyErr
  | sqlite3OperationalError
  | sqlite3IntegrityError
  | pydanticValidationError
  | duplicateHabitError
  | malformedRecordError
  | storageInitError
  | storageQueryError
deriving DecidableEq

deriving instance DecidableEq for Except

/-- A value stored in a sqlite column: TEXT or INTEGER.  (The program
never stores NULLs, reals or blobs in the modelled fragment.) -/
inductive SqlValue
  | text (s : String)
  | int (n : Int)
deriving DecidableEq

/-- A database file: the catalog of tables that exist (the names listed
in sqlite_master) and the rows of the habits table, in rowid order. -/
structure DB where
  tables : List String
  habits : List (List SqlValue)
deriving DecidableEq

/-- A Python value handed to the entity model or rendered into SQL. -/
inductive PyValue
  | str (s : String)
  | bool (b : Bool)
  | int (n : Int)
deriving DecidableEq

/-- Python's str() of a bool, as used by the f-string interpolation in
habit_add and by pydantic's str coercion. -/
def pyStr (b : Bool) : String := if b then "True" else "False"

/-! ## Entity model (class Model / class Habit, pydantic) -/

/-- The typed Habit entity (class Habit: title, description, required,
negative, declared in that order). -/
structure Habit where
  title : String
  description : String
  required : Bool
  negative : Bool
deriving DecidableEq

/-- pydantic v1 coercion of a raw value into a str field: strings are
accepted as-is, numbers (bools included, being Python ints) are rendered
with str().  Never fails on the representable values. -/
def coerceStr : PyValue → Option String
  | .str s => some s
  | .bool b => some (pyStr b)
  | .int n => some (toString n)

/-- Python's str.lower(), character by character. -/
def pyLower (s : String) : String := ⟨s.data.map Char.toLower⟩

/-- pydantic v1 coercion of a raw value into a bool field: bools are
accepted, the ints 0 and 1 are accepted, and a string is lowercased and
looked up in the fixed true/false vocabularies; anything else fails. -/
def coerceBool : PyValue → Option Bool
  | .bool b => some b
  | .int n => if n = 0 then some false else if n = 1 then some true else none
  | .str s =>
    let l := pyLower s
    if l ∈ ["1", "on", "t", "true", "y", "yes"] then some true
    else if l ∈ ["0", "off", "f", "false", "n", "no"] then some false
    else none

/-- Model.from_values for the Habit entity: dict(zip(fields, values))
keeps at most the first four values (zip truncates, silently dropping
any surplus), then Habit(**data) validates: a missing field or a value
that does not coerce raises pydantic.ValidationError. -/
def Habit.from_values (values : List PyValue) : Except PyErr Habit :=
  match values with
  | t :: d :: r :: n :: _ =>
    match coerceStr t, coerceStr d, coerceBool r, coerceBool n with
    | some t', some d', some r', some n' => .ok ⟨t', d', r', n'⟩
    | _, _, _, _ => .error .pydanticValidationError
  | _ => .error .pydanticValidationError

/-! ## Statement rendering (habit_add body) -/

/-- The f-string fragment f-quote-x-quote applied to one already
stringified value. -/
def pyQuote (x : String) : String := "\"" ++ x ++ "\""

/-- The INSERT statement text habit_add builds.  kwargs arrive in click
declaration order (title, description, require, negative); each value is
stringified with str() and wrapped in double quotes, and both lists are
joined with a comma and a space. -/
def habitAddStmt (title description : String) (require negative : Bool) : String :=
  let fields := String.intercalate ", " ["title", "description", "require", "negative"]
  let values := String.intercalate ", "
    ([title, description, pyStr require, pyStr negative].map pyQuote)
  "INSERT INTO habits (" ++ fields ++ ") VALUES (" ++ values ++ ");"

/-! ## The sqlite3 engine, restricted to the reachable statement fragment

The engine understands exactly the statements the claims exercise: the
INSERT shape habit_add generates (with sqlite's double-quote lexing,
including the doubled-quote escape), the SELECT issued by habits_list,
and the COUNT query of the specification; every other statement text is
reported as a store-level failure.  This is a deliberate restriction of
sqlite's full grammar to the fragment this program reaches. -/

/-- The fixed prefix of every INSERT habit_add can generate. -/
def insHeaderChars : List Char :=
  "INSERT INTO habits (title, description, require, negative) VALUES (".data

/-- Strip an expected prefix from the character stream. -/
def stripHead : List Char → List Char → Option (List Char)
  | [], s => some s
  | _ :: _, [] => none
  | p :: ps, c :: cs => if p = c then stripHead ps cs else none

/-- Strip the trailing close-paren-semicolon of the INSERT statement. -/
def stripClose (l : List Char) : Option (List Char) :=
  match l.reverse with
  | ';' :: ')' :: innerRev => some innerRev.reverse
  | _ => none

/-- Lex a comma-separated list of double-quoted sqlite tokens, having
already consumed the opening quote of the first token: a doubled quote
inside a token denotes one literal quote character, a quote followed by
comma-space-quote separates tokens, and a quote at the end of input
closes the last token; anything else is a syntax error. -/
def scanVals (acc : List Char) : List Char → Option (List String)
  | [] => none
  | c :: rest =>
    if c = '"' then
      match rest with
      | '"' :: rest2 => scanVals (acc ++ ['"']) rest2
      | [] => some [⟨acc⟩]
      | ',' :: ' ' :: '"' :: rest2 => (scanVals [] rest2).map (⟨acc⟩ :: ·)
      | _ => none
    else scanVals (acc ++ [c]) rest

/-- Lex the VALUES list: it must open with a double quote. -/
def parseVals : List Char → Option (List String)
  | '"' :: rest => scanVals [] rest
  | _ => none

/-- Recognize an INSERT of the shape habit_add generates and return the
lexed value tokens, or none if the text is not such an INSERT. -/
def matchInsert (stmt : String) : Option (List String) :=
  match stripHead insHeaderChars stmt.data with
  | none => none
  | some rest =>
    match stripClose rest with
    | none => none
    | some inner => parseVals inner

/-- Execute the recognized INSERT: the habits table must exist, exactly
four values must be supplied, and the UNIQUE constraint on title must
hold, else sqlite raises; on success one all-TEXT row is appended (every
double-quoted token is a TEXT literal, and the habits columns keep TEXT
under NUMERIC affinity since the strings are not numbers). -/
def execInsertVals (db : DB) (vals : List String) :
    Except PyErr (DB × List (List SqlValue)) :=
  if "habits" ∈ db.tables then
    match vals with
    | [t, d, r, n] =>
      if db.habits.any (fun row => decide (row.head? = some (SqlValue.text t))) then
        .error .sqlite3IntegrityError
      else
        .ok ({ db with habits :=
                 db.habits ++ [[.text t, .text d, .text r, .text n]] }, [])
    | _ => .error .sqlite3OperationalError
  else .error .sqlite3OperationalError

/-- One cursor.execute call on the modelled engine: the recognized
INSERT, the two SELECT shapes, or a store-level failure. -/
def sqliteExec (db : DB) (stmt : String) :
    Except PyErr (DB × List (List SqlValue)) :=
  match matchInsert stmt with
  | some vals => execInsertVals db vals
  | none =>
    if stmt = "SELECT * FROM habits;" then
      if "habits" ∈ db.tables then .ok (db, db.habits)
      else .error .sqlite3OperationalError
    else if stmt = "SELECT COUNT(*) FROM habits" then
      if "habits" ∈ db.tables then .ok (db, [[SqlValue.int (db.habits.length : Int)]])
      else .error .sqlite3OperationalError
    else .error .sqlite3OperationalError

/-! ## Schema manager (_check_database / create_tables) -/

/-- create_tables: cursor.executescript(_CREATE_TABLES).  The script's
first statement creates the habits table; its second statement (CREATE
TABLE habit_records) is a sqlite syntax error -- the malformed
PRIMARY_KEY (uuid) clause -- so executescript always raises
sqlite3.OperationalError, after having created (and committed) at most
the habits table; habit_names is never reached.  If habits already
exists the first statement itself fails and nothing changes. -/
def create_tables (db : DB) : DB × Option PyErr :=
  if "habits" ∈ db.tables then (db, some .sqlite3OperationalError)
  else ({ tables := db.tables ++ ["habits"], habits := [] },
        some .sqlite3OperationalError)

/-- _check_database: reads the table catalog; if it is empty, runs
create_tables (whose exception, if any, propagates); otherwise returns
the connection untouched. -/
def check_database (db : DB) : DB × Option PyErr :=
  if db.tables = [] then create_tables db else (db, none)

/-! ## Store gateway commands (habit_add / habits_list / exec_sql) -/

/-- habit_add: builds the interpolated INSERT text and executes it; on
success commits, on failure the exception propagates and the store file
is unchanged. -/
def habit_add (db : DB) (title description : String) (require negative : Bool) :
    DB × Option PyErr :=
  match sqliteExec db (habitAddStmt title description require negative) with
  | .ok (db', _) => (db', none)
  | .error e => (db, some e)

/-- The sqlite-to-Python translation of fetched values: TEXT columns
arrive as str, INTEGER results as int. -/
def sqlValueToPy : SqlValue → PyValue
  | .text s => .str s
  | .int n => .int n

/-- The list comprehension of habits_list: converts each fetched row
through Habit.from_values, raising at the first failure. -/
def fromValuesAll : List (List SqlValue) → Except PyErr (List Habit)
  | [] => .ok []
  | row :: rest =>
    match Habit.from_values (row.map sqlValueToPy) with
    | .error e => .error e
    | .ok h =>
      match fromValuesAll rest with
      | .error e => .error e
      | .ok hs => .ok (h :: hs)

/-- habits_list: SELECT * FROM habits; then convert each row; the store
state never changes. -/
def habits_list (db : DB) : Except PyErr (List Habit) :=
  match sqliteExec db "SELECT * FROM habits;" with
  | .error e => .error e
  | .ok (_, rows) => fromValuesAll rows

/-- Outcome of one raw statement execution: post-state, fetched rows,
and the raised exception if any. -/
structure ExecResult where
  db : DB
  rows : List (List SqlValue)
  err : Option PyErr
deriving DecidableEq

/-- exec_sql: executes the caller-supplied statement text directly; the
function installs no handler, so any store-level exception propagates
as-is (and a failed statement leaves the store unchanged). -/
def exec_sql (db : DB) (command : String) : ExecResult :=
  match sqliteExec db command with
  | .ok (db', rows) => ⟨db', rows, none⟩
  | .error e => ⟨db, [], some e⟩

/-! ## Command dispatcher (the click group and its three subcommands) -/

/-- The three command intents the CLI maps onto the store gateway. -/
inductive Cmd
  | add (title description : String) (require negative : Bool)
  | list
  | execCmd (command : String)

/-- The user-visible result of one command (add prints nothing, list
prints Habits, exec prints raw rows). -/
inductive CmdResult
  | added
  | listed (habits : List Habit)
  | rawRows (rs : List (List SqlValue))
deriving DecidableEq

/-- The logging level the group callback configures: DEBUG (10) when
--debug, else INFO (20) when --verbose, else left unconfigured. -/
def logLevelFor (verbose debug : Bool) : Option Nat :=
  if verbose || debug then some (if debug then 10 else 20) else none

/-- Everything one CLI invocation produces: final store state, raised
exception, command result, and the configured diagnostic level. -/
structure CliOutcome where
  db : DB
  err : Option PyErr
  result : Option CmdResult
  logLevel : Option Nat
deriving DecidableEq

/-- One full CLI invocation: the group callback configures logging from
the flags, runs _check_database on the store, stores the connection in
the context settings, and dispatches the subcommand; an exception at any
point propagates. -/
def runCli (verbose debug : Bool) (store : DB) (cmd : Cmd) : CliOutcome :=
  let lvl := logLevelFor verbose debug
  let r1 := check_database store
  match r1.2 with
  | some e => ⟨r1.1, some e, none, lvl⟩
  | none =>
    match cmd with
    | .add t d rq ng =>
      let r2 := habit_add r1.1 t d rq ng
      ⟨r2.1, r2.2, if r2.2 = none then some .added else none, lvl⟩
    | .list =>
      match habits_list r1.1 with
      | .ok hs => ⟨r1.1, none, some (.listed hs), lvl⟩
      | .error e => ⟨r1.1, some e, none, lvl⟩
    | .execCmd c =>
      let r2 := exec_sql r1.1 c
      ⟨r2.db, r2.err, if r2.err = none then some (.rawRows r2.rows) else none, lvl⟩

/-- The semantics of an invocation with diagnostic output erased. -/
def CliOutcome.core (o : CliOutcome) : DB × Option PyErr × Option CmdResult :=
  (o.db, o.err, o.result)

/-- A store state holding an initialized (first-run-attempted) database
with no habits yet. -/
def dbReady : DB := ⟨["habits"], []⟩

/-- A store state holding exactly the one habit row produced by adding
title read with empty description, require True and negative False. -/
def dbOneRead : DB :=
  ⟨["habits"], [[.text "read", .text "", .text "True", .text "False"]]⟩

/-- The character stream of the VALUES list habit_add renders (between
the opening and closing parentheses). -/
def valsChars (t d : String) (r : Bool) (n : Bool) : List Char :=
  ['"'] ++ t.data ++ ['"', ',', ' ', '"'] ++ d.data ++ ['"', ',', ' ', '"'] ++
    (pyStr r).data ++ ['"', ',', ' ', '"'] ++ (pyStr n).data ++ ['"']

/-- Whether a raw four-or-more value sequence contains a value that the
declared Habit field in its position cannot be coerced from. -/
def fieldCoercionFails : List PyValue → Bool
  | t :: d :: r :: n :: _ =>
    (coerceStr t).isNone || (coerceStr d).isNone ||
      (coerceBool r).isNone || (coerceBool n).isNone
  | _ => false

/-- A sequence of add-habit invocations, each a separate CLI run on the
store left by the previous one; some state only when every run
succeeded. -/
def runAdds (db : DB) : List (String × String × Bool × Bool) → Option DB
  | [] => some db
  | (t, d, r, n) :: rest =>
    match habit_add db t d r n with
    | (db', none) => runAdds db' rest
    | (_, some _) => none

/-! ## Infrastructure lemmas -/

theorem string_mk_data (s : String) : String.mk s.data = s := rfl

theorem pyStr_noQuote (b : Bool) : ∀ c ∈ (pyStr b).data, c ≠ '"' := by
  cases b <;> decide

theorem stripHead_self (p : List Char) : ∀ s, stripHead p (p ++ s) = some s := by
  induction p with
  | nil => intro s; rfl
  | cons c p ih => intro s; simp [stripHead, ih]

theorem stripClose_append (l : List Char) : stripClose (l ++ [')', ';']) = some l := by
  simp [stripClose, List.reverse_append]

theorem scanVals_step (acc : List Char) (c : Char) (rest : List Char) (hc : c ≠ '"') :
    scanVals acc (c :: rest) = scanVals (acc ++ [c]) rest := by
  rw [scanVals.eq_def]
  simp [hc]

theorem scanVals_shift : ∀ (s : List Char), (∀ c ∈ s, c ≠ '"') → ∀ acc rest,
    scanVals acc (s ++ rest) = scanVals (acc ++ s) rest := by
  intro s
  induction s with
  | nil => intro _ acc rest; simp
  | cons c s ih =>
    intro hs acc rest
    have hc : c ≠ '"' := hs c (List.mem_cons_self c s)
    have hs' : ∀ x ∈ s, x ≠ '"' := fun x hx => hs x (List.mem_cons_of_mem c hx)
    calc scanVals acc ((c :: s) ++ rest)
        = scanVals (acc ++ [c]) (s ++ rest) := by
          rw [List.cons_append]; exact scanVals_step acc c (s ++ rest) hc
      _ = scanVals ((acc ++ [c]) ++ s) rest := ih hs' (acc ++ [c]) rest
      _ = scanVals (acc ++ (c :: s)) rest := by
          rw [List.append_assoc, List.singleton_append]

theorem scanVals_last (acc : List Char) : scanVals acc ['"'] = some [String.mk acc] := rfl

theorem scanVals_sep (acc rest2 : List Char) :
    scanVals acc ('"' :: ',' :: ' ' :: '"' :: rest2) =
      (scanVals [] rest2).map (String.mk acc :: ·) := rfl

theorem parseVals_render (t d : String) (r n : Bool)
    (ht : ∀ c ∈ t.data, c ≠ '"') (hd : ∀ c ∈ d.data, c ≠ '"') :
    parseVals (valsChars t d r n) = some [t, d, pyStr r, pyStr n] := by
  have hvc : valsChars t d r n =
      '"' :: (t.data ++ ('"' :: ',' :: ' ' :: '"' ::
        (d.data ++ ('"' :: ',' :: ' ' :: '"' ::
          ((pyStr r).data ++ ('"' :: ',' :: ' ' :: '"' ::
            ((pyStr n).data ++ ['"']))))))) := by
    simp [valsChars]
  rw [hvc]
  show scanVals [] (t.data ++ _) = _
  rw [scanVals_shift t.data ht, List.nil_append, scanVals_sep,
      scanVals_shift d.data hd, List.nil_append, scanVals_sep,
      scanVals_shift (pyStr r).data (pyStr_noQuote r), List.nil_append, scanVals_sep,
      scanVals_shift (pyStr n).data (pyStr_noQuote n), List.nil_append, scanVals_last]
  simp [string_mk_data]

theorem habitAddStmt_data (t d : String) (r n : Bool) :
    (habitAddStmt t d r n).data = insHeaderChars ++ valsChars t d r n ++ [')', ';'] := by
  have h : habitAddStmt t d r n =
      "INSERT INTO habits (title, description, require, negative) VALUES (" ++
        (pyQuote t ++ ", " ++ pyQuote d ++ ", " ++
          pyQuote (pyStr r) ++ ", " ++ pyQuote (pyStr n)) ++ ");" := rfl
  rw [h]
  simp only [pyQuote, insHeaderChars, valsChars, String.data_append]
  simp [List.append_assoc]

theorem matchInsert_habitAddStmt (t d : String) (r n : Bool)
    (ht : ∀ c ∈ t.data, c ≠ '"') (hd : ∀ c ∈ d.data, c ≠ '"') :
    matchInsert (habitAddStmt t d r n) = some [t, d, pyStr r, pyStr n] := by
  unfold matchInsert
  rw [habitAddStmt_data, List.append_assoc, stripHead_self]
  simp only [stripClose_append]
  exact parseVals_render t d r n ht hd

theorem habitAddStmt_ne_select (t d : String) (r n : Bool) :
    habitAddStmt t d r n ≠ "SELECT * FROM habits;" ∧
      habitAddStmt t d r n ≠ "SELECT COUNT(*) FROM habits" := by
  have h0 : insHeaderChars = 'I' ::
      "NSERT INTO habits (title, description, require, negative) VALUES (".data := rfl
  have hdata : (habitAddStmt t d r n).data = 'I' ::
      ("NSERT INTO habits (title, description, require, negative) VALUES (".data ++
        (valsChars t d r n ++ [')', ';'])) := by
    rw [habitAddStmt_data, h0]; simp [List.append_assoc]
  constructor <;> intro h <;> rw [h] at hdata
  · have h1 : "SELECT * FROM habits;".data =
        'S' :: "ELECT * FROM habits;".data := rfl
    rw [h1] at hdata
    injection hdata with h2 _
    exact absurd h2 (by decide)
  · have h1 : "SELECT COUNT(*) FROM habits".data =
        'S' :: "ELECT COUNT(*) FROM habits".data := rfl
    rw [h1] at hdata
    injection hdata with h2 _
    exact absurd h2 (by decide)

theorem habit_add_eq (db : DB) (t d : String) (r n : Bool)
    (htab : "habits" ∈ db.tables)
    (ht : ∀ c ∈ t.data, c ≠ '"') (hd : ∀ c ∈ d.data, c ≠ '"') :
    habit_add db t d r n =
      if db.habits.any (fun row => decide (row.head? = some (SqlValue.text t))) then
        (db, some .sqlite3IntegrityError)
      else
        ({ db with habits := db.habits ++
            [[.text t, .text d, .text (pyStr r), .text (pyStr n)]] }, none) := by
  unfold habit_add sqliteExec
  rw [matchInsert_habitAddStmt t d r n ht hd]
  simp only [execInsertVals, if_pos htab]
  by_cases hdup :
      db.habits.any (fun row => decide (row.head? = some (SqlValue.text t))) = true
  · rw [if_pos hdup, if_pos hdup]
  · rw [if_neg hdup, if_neg hdup]

theorem execInsertVals_ok (db : DB) (vals : List String) (db2 : DB)
    (rows : List (List SqlValue)) (h : execInsertVals db vals = .ok (db2, rows)) :
    db2.tables = db.tables ∧ ∃ row, db2.habits = db.habits ++ [row] := by
  unfold execInsertVals at h
  split at h
  · split at h
    · split at h
      · exact absurd h (by simp)
      · simp only [Except.ok.injEq, Prod.mk.injEq] at h
        exact ⟨by rw [← h.1], _, by rw [← h.1]⟩
    · exact absurd h (by simp)
  · exact absurd h (by simp)

theorem habit_add_ok_shape (db : DB) (t d : String) (r n : Bool) (db' : DB)
    (h : habit_add db t d r n = (db', none)) :
    db'.tables = db.tables ∧ ∃ row, db'.habits = db.habits ++ [row] := by
  unfold habit_add at h
  cases hse : sqliteExec db (habitAddStmt t d r n) with
  | error e => rw [hse] at h; exact absurd h (by simp)
  | ok p =>
    obtain ⟨db2, rows⟩ := p
    rw [hse] at h
    have h2 : ((db2, (none : Option PyErr)) : DB × Option PyErr) = (db', none) := h
    have hdb : db2 = db' := (Prod.mk.injEq _ _ _ _ ▸ h2).1
    subst hdb
    unfold sqliteExec at hse
    cases hm : matchInsert (habitAddStmt t d r n) with
    | some vals =>
      rw [hm] at hse
      exact execInsertVals_ok db vals db2 rows hse
    | none =>
      rw [hm] at hse
      obtain ⟨h1s, h2s⟩ := habitAddStmt_ne_select t d r n
      rw [if_neg h1s, if_neg h2s] at hse
      exact absurd hse (by simp)

theorem runAdds_shape : ∀ (reqs : List (String × String × Bool × Bool)) (db dbf : DB),
    runAdds db reqs = some dbf →
      dbf.tables = db.tables ∧ dbf.habits.length = db.habits.length + reqs.length := by
  intro reqs
  induction reqs with
  | nil =>
    intro db dbf h
    simp only [runAdds, Option.some.injEq] at h
    subst h; simp
  | cons q rest ih =>
    intro db dbf h
    obtain ⟨t, d, r, n⟩ := q
    rw [runAdds] at h
    cases haa : habit_add db t d r n with
    | mk db' oe =>
      rw [haa] at h
      cases oe with
      | some e => simp at h
      | none =>
        obtain ⟨htabs, hlen⟩ := ih db' dbf h
        obtain ⟨hrt, row, hrh⟩ := habit_add_ok_shape db t d r n db' haa
        refine ⟨htabs.trans hrt, ?_⟩
        rw [hlen, hrh]
        simp [List.length_append]
        omega

theorem coerceBool_pyStr (b : Bool) : coerceBool (.str (pyStr b)) = some b := by
  cases b <;> decide

theorem from_values_newRow (t d : String) (r n : Bool) :
    Habit.from_values
        (([SqlValue.text t, .text d, .text (pyStr r), .text (pyStr n)]).map sqlValueToPy) =
      .ok ⟨t, d, r, n⟩ := by
  simp [Habit.from_values, sqlValueToPy, coerceStr, coerceBool_pyStr]

theorem fromValuesAll_ok (rows : List (List SqlValue))
    (h : ∀ r ∈ rows, ∃ hb, Habit.from_values (r.map sqlValueToPy) = .ok hb) :
    ∃ hs, fromValuesAll rows = .ok hs ∧
      ∀ r ∈ rows, ∀ hb, Habit.from_values (r.map sqlValueToPy) = .ok hb → hb ∈ hs := by
  induction rows with
  | nil => exact ⟨[], rfl, by simp⟩
  | cons row rest ih =>
    obtain ⟨hb, hhb⟩ := h row (List.mem_cons_self row rest)
    obtain ⟨hs, hhs, hmem⟩ := ih (fun r hr => h r (List.mem_cons_of_mem row hr))
    refine ⟨hb :: hs, ?_, ?_⟩
    · simp [fromValuesAll, hhb, hhs]
    · intro r hr hb' hb'eq
      rcases List.mem_cons.mp hr with heq | hr'
      · subst heq
        rw [hb'eq] at hhb
        injection hhb with hh
        rw [hh]
        exact List.mem_cons_self hb hs
      · exact List.mem_cons_of_mem hb (hmem r hr' hb' hb'eq)

/-! ## The claims -/

/-- Claim C2, counterexample to the claim as stated: on a store already
holding title read, adding read again raises sqlite3.IntegrityError --
which is not a DuplicateHabitError (the code defines no such class). -/
theorem c2_counterexample :
    habit_add dbOneRead "read" "x" false false =
      (dbOneRead, some PyErr.sqlite3IntegrityError) ∧
      PyErr.sqlite3IntegrityError ≠ PyErr.duplicateHabitError :=
  ⟨by decide, by decide⟩

/-- Claim C2 (amended): on a store whose habits table holds a row with
the given title, adding that title again (with quote-free inputs) raises
sqlite3.IntegrityError -- not a DuplicateHabitError, which the code
never defines -- and leaves the store completely unchanged. -/
theorem c2_duplicate_add_fails (db : DB) (t d : String) (r n : Bool)
    (htab : "habits" ∈ db.tables)
    (ht : ∀ c ∈ t.data, c ≠ '"') (hd : ∀ c ∈ d.data, c ≠ '"')
    (hdup : ∃ row ∈ db.habits, row.head? = some (SqlValue.text t)) :
    habit_add db t d r n = (db, some PyErr.sqlite3IntegrityError) := by
  rw [habit_add_eq db t d r n htab ht hd]
  obtain ⟨row, hrow, heq⟩ := hdup
  rw [if_pos]
  exact List.any_eq_true.mpr ⟨row, hrow, by simp [heq]⟩

/-- Claim C2, witness: the amended theorem applied on the concrete
one-habit store. -/
theorem c2_witness :
    habit_add dbOneRead "read" "x" false false =
      (dbOneRead, some PyErr.sqlite3IntegrityError) :=
  c2_duplicate_add_fails dbOneRead "read" "x" false false (by decide) (by decide)
    (by decide) ⟨[.text "read", .text "", .text "True", .text "False"], by decide, by decide⟩

/-- Claim C3: on a fresh (empty) store the schema initialization does
not produce the three relations: the schema script is malformed, so the
first run creates only the habits relation and raises
sqlite3.OperationalError (not the StorageInitError the spec promises),
and every later run returns normally with a catalog of exactly one
relation. -/
theorem c3_schema_init_broken :
    check_database ⟨[], []⟩ = (⟨["habits"], []⟩, some PyErr.sqlite3OperationalError) ∧
      PyErr.sqlite3OperationalError ≠ PyErr.storageInitError ∧
      (["habits"] : List String) ≠ ["habits", "habit_records", "habit_names"] ∧
      check_database ⟨["habits"], []⟩ = (⟨["habits"], []⟩, none) :=
  ⟨by decide, by decide, by decide, by decide⟩

/-- Claim C5: running the schema-initialization operation a second time
is a no-op: whatever store the first run left (even a fresh store, where
the first run fails after creating only the habits relation), the second
run returns that store unchanged and raises nothing. -/
theorem c5_recheck_is_noop (db : DB) :
    check_database (check_database db).1 = ((check_database db).1, none) := by
  by_cases h : db.tables = []
  · simp [check_database, create_tables, h]
  · simp [check_database, h]

/-- Claim C6, counterexample to the claim as stated: a failing raw
statement surfaces as the propagated sqlite3.OperationalError, not as a
StorageQueryError (the code defines no such class and installs no
handler). -/
theorem c6_counterexample :
    exec_sql dbReady "BOGUS" = ⟨dbReady, [], some PyErr.sqlite3OperationalError⟩ ∧
      PyErr.sqlite3OperationalError ≠ PyErr.storageQueryError :=
  ⟨by decide, by decide⟩

/-- Claim C6 (amended): whenever the store reports an execution failure,
exec_sql propagates exactly that store-level error (the exception is
never swallowed and never reclassified; the process terminates with it)
and the store is left unchanged. -/
theorem c6_store_error_propagates (db : DB) (command : String) (e : PyErr)
    (h : sqliteExec db command = .error e) :
    exec_sql db command = ⟨db, [], some e⟩ := by
  unfold exec_sql
  rw [h]

/-- Claim C6, witness: the propagation theorem applied to a concrete
malformed statement. -/
theorem c6_witness : exec_sql dbReady "BOGUS" = ⟨dbReady, [], some PyErr.sqlite3OperationalError⟩ :=
  c6_store_error_propagates dbReady "BOGUS" PyErr.sqlite3OperationalError (by decide)

/-- Claim C4, counterexample to the claim as stated: a three-element
tuple makes Habit.from_values fail with pydantic.ValidationError, which
is not a MalformedRecordError (the code defines no such class). -/
theorem c4_counterexample :
    Habit.from_values [.str "read", .str "desc", .bool true] =
        .error PyErr.pydanticValidationError ∧
      PyErr.pydanticValidationError ≠ PyErr.malformedRecordError :=
  ⟨by decide, by decide⟩

/-- Claim C4 (amended): for every value sequence shorter than the four
declared fields, and for every sequence whose first four values contain
one that cannot be coerced to its declared field type, Habit.from_values
fails with pydantic.ValidationError (the code defines no
MalformedRecordError) rather than producing a Habit. -/
theorem c4_malformed_fails (vs : List PyValue)
    (h : vs.length < 4 ∨ fieldCoercionFails vs = true) :
    Habit.from_values vs = .error PyErr.pydanticValidationError := by
  match vs with
  | [] => rfl
  | [_] => rfl
  | [_, _] => rfl
  | [_, _, _] => rfl
  | t :: d :: r :: n :: rest =>
    rcases h with hlen | hfail
    · simp only [List.length_cons] at hlen; omega
    · simp only [fieldCoercionFails, Bool.or_eq_true, Option.isNone_iff_eq_none] at hfail
      cases hcs1 : coerceStr t <;> cases hcs2 : coerceStr d <;>
        cases hcb1 : coerceBool r <;> cases hcb2 : coerceBool n <;>
        simp_all [Habit.from_values]

/-- Claim C4, witness: the amended theorem applied to the three-element
tuple of the specification's own example. -/
theorem c4_witness :
    Habit.from_values [.str "read", .str "desc", .bool true] =
      .error PyErr.pydanticValidationError :=
  c4_malformed_fails [.str "read", .str "desc", .bool true] (Or.inl (by decide))

/-- Claim C9, counterexample to the claim as stated: a five-element
sequence (strictly longer than the four fields) on which from_values
does not succeed, because a value among the first four fails coercion:
surplus values are discarded, but success is not guaranteed. -/
theorem c9_counterexample :
    ([PyValue.str "a", .str "b", .str "banana", .bool false, .str "x"].length = 5) ∧
      Habit.from_values [.str "a", .str "b", .str "banana", .bool false, .str "x"] =
        .error PyErr.pydanticValidationError :=
  ⟨by decide, by decide⟩

/-- Claim C9 (amended): Habit.from_values on a sequence strictly longer
than the four declared fields behaves exactly as on its first four
values: the surplus is silently discarded and never itself reported as
an error, so the construction succeeds precisely when the first four
values validate. -/
theorem c9_surplus_discarded (v0 v1 v2 v3 : PyValue) (extra : List PyValue) :
    Habit.from_values (v0 :: v1 :: v2 :: v3 :: extra) =
      Habit.from_values [v0, v1, v2, v3] := rfl

theorem sqliteExec_selectAll (db : DB) (htab : "habits" ∈ db.tables) :
    sqliteExec db "SELECT * FROM habits;" = .ok (db, db.habits) := by
  unfold sqliteExec
  simp only [show matchInsert "SELECT * FROM habits;" = none from by decide]
  simp [htab]

theorem sqliteExec_count (db : DB) (htab : "habits" ∈ db.tables) :
    sqliteExec db "SELECT COUNT(*) FROM habits" =
      .ok (db, [[SqlValue.int (db.habits.length : Int)]]) := by
  unfold sqliteExec
  simp only [show matchInsert "SELECT COUNT(*) FROM habits" = none from by decide]
  simp [htab]

theorem no_dup_any_false (db : DB) (t : String)
    (hfresh : ∀ row ∈ db.habits, row.head? ≠ some (SqlValue.text t)) :
    ¬ (db.habits.any (fun row => decide (row.head? = some (SqlValue.text t))) = true) := by
  intro hba
  obtain ⟨row, hrow, hp⟩ := List.any_eq_true.mp hba
  rw [decide_eq_true_eq] at hp
  exact hfresh row hrow hp

/-- Claim C1, counterexample to the claim as stated: a title containing
a double quote breaks the interpolated INSERT (sqlite syntax error), so
the habit is never inserted and the subsequent list does not contain it:
the round trip fails for such tuples. -/
theorem c1_counterexample :
    habit_add dbReady "a\"b" "d" false false = (dbReady, some PyErr.sqlite3OperationalError) ∧
      habits_list dbReady = .ok [] :=
  ⟨by decide, by decide⟩

/-- Claim C1 (amended): for every tuple whose title is non-empty and not
already present, whose title and description contain no double-quote
character, and on a store whose existing rows all parse as Habits, the
add-habit operation succeeds and the subsequent list-habits yields among
its results a Habit whose title, description, required and negative
fields equal the inserted values. -/
theorem c1_add_then_list_roundtrip (db : DB) (t d : String) (r n : Bool)
    (htab : "habits" ∈ db.tables) (hne : t ≠ "")
    (ht : ∀ c ∈ t.data, c ≠ '"') (hd : ∀ c ∈ d.data, c ≠ '"')
    (hfresh : ∀ row ∈ db.habits, row.head? ≠ some (SqlValue.text t))
    (hwf : ∀ row ∈ db.habits, ∃ hb, Habit.from_values (row.map sqlValueToPy) = .ok hb) :
    ∃ db' hs, habit_add db t d r n = (db', none) ∧
      habits_list db' = .ok hs ∧ Habit.mk t d r n ∈ hs := by
  have hdup := no_dup_any_false db t hfresh
  have hadd : habit_add db t d r n =
      ({ db with habits := db.habits ++
          [[.text t, .text d, .text (pyStr r), .text (pyStr n)]] }, none) := by
    rw [habit_add_eq db t d r n htab ht hd, if_neg hdup]
  have htab' : "habits" ∈
      ({ db with habits := db.habits ++
          [[SqlValue.text t, .text d, .text (pyStr r), .text (pyStr n)]] } : DB).tables := htab
  have hwf' : ∀ row ∈ db.habits ++
        [[SqlValue.text t, .text d, .text (pyStr r), .text (pyStr n)]],
      ∃ hb, Habit.from_values (row.map sqlValueToPy) = .ok hb := by
    intro row hrow
    rcases List.mem_append.mp hrow with h1 | h1
    · exact hwf row h1
    · rw [List.mem_singleton.mp h1]
      exact ⟨⟨t, d, r, n⟩, from_values_newRow t d r n⟩
  obtain ⟨hs, hfs, hmem⟩ := fromValuesAll_ok _ hwf'
  refine ⟨_, hs, hadd, ?_, ?_⟩
  · unfold habits_list
    rw [sqliteExec_selectAll _ htab']
    exact hfs
  · exact hmem _ (List.mem_append.mpr (Or.inr (List.mem_singleton.mpr rfl))) _
      (from_values_newRow t d r n)

/-- Claim C1, witness: the amended round trip on a concrete store and
tuple. -/
theorem c1_witness :
    ∃ db' hs, habit_add dbReady "read" "desc" true false = (db', none) ∧
      habits_list db' = .ok hs ∧ Habit.mk "read" "desc" true false ∈ hs :=
  c1_add_then_list_roundtrip dbReady "read" "desc" true false (by decide) (by decide)
    (by decide) (by decide) (fun row hrow => absurd hrow (List.not_mem_nil row))
    (fun row hrow => absurd hrow (List.not_mem_nil row))

/-- Claim C7: after a sequence of n successful add-habit invocations on
an initially empty store, the raw COUNT query through the escape hatch
returns exactly one row holding exactly the integer n. -/
theorem c7_count_after_adds (reqs : List (String × String × Bool × Bool)) (db0 dbf : DB)
    (htab : "habits" ∈ db0.tables) (hempty : db0.habits = [])
    (hrun : runAdds db0 reqs = some dbf) :
    exec_sql dbf "SELECT COUNT(*) FROM habits" =
      ⟨dbf, [[SqlValue.int (reqs.length : Int)]], none⟩ := by
  obtain ⟨htabs, hlen⟩ := runAdds_shape reqs db0 dbf hrun
  have htabf : "habits" ∈ dbf.tables := by rw [htabs]; exact htab
  have hcnt : dbf.habits.length = reqs.length := by
    rw [hlen, hempty]; simp
  unfold exec_sql
  rw [sqliteExec_count dbf htabf, hcnt]

/-- Claim C7, witness: two successful adds on the empty ready store,
then COUNT returns 2. -/
theorem c7_witness :
    exec_sql (⟨["habits"], [[.text "read", .text "", .text "True", .text "False"],
        [.text "work", .text "d", .text "False", .text "True"]]⟩ : DB)
      "SELECT COUNT(*) FROM habits" =
      ⟨⟨["habits"], [[.text "read", .text "", .text "True", .text "False"],
          [.text "work", .text "d", .text "False", .text "True"]]⟩,
        [[SqlValue.int 2]], none⟩ :=
  c7_count_after_adds [("read", "", true, false), ("work", "d", false, true)] dbReady
    (⟨["habits"], [[.text "read", .text "", .text "True", .text "False"],
        [.text "work", .text "d", .text "False", .text "True"]]⟩ : DB)
    (by decide) (by decide) (by decide)

/-- Claim C8: two invocations differing only in the verbose and debug
flags produce the same store state, the same raised error and the same
command result: the flags reach only the diagnostic log level. -/
theorem c8_verbosity_irrelevant (v1 d1 v2 d2 : Bool) (store : DB) (cmd : Cmd) :
    (runCli v1 d1 store cmd).core = (runCli v2 d2 store cmd).core := by
  unfold runCli
  cases h1 : (check_database store).2 with
  | some e => simp [CliOutcome.core, h1]
  | none =>
    cases cmd with
    | add t d rq ng => simp [CliOutcome.core, h1]
    | list =>
      cases h2 : habits_list (check_database store).1 <;> simp [CliOutcome.core, h1, h2]
    | execCmd c => simp [CliOutcome.core, h1]

/-- Claim C10: the boolean inputs of a successful add are persisted as
the TEXT renderings True and False produced by the double-quoted string
interpolation, and the raw SELECT through the escape hatch observes
exactly those text values. -/
theorem c10_bools_stored_as_text (db : DB) (t d : String) (r n : Bool)
    (htab : "habits" ∈ db.tables)
    (ht : ∀ c ∈ t.data, c ≠ '"') (hd : ∀ c ∈ d.data, c ≠ '"')
    (hfresh : ∀ row ∈ db.habits, row.head? ≠ some (SqlValue.text t)) :
    habit_add db t d r n =
        ({ db with habits := db.habits ++
            [[.text t, .text d, .text (pyStr r), .text (pyStr n)]] }, none) ∧
      exec_sql ({ db with habits := db.habits ++
            [[.text t, .text d, .text (pyStr r), .text (pyStr n)]] } : DB)
          "SELECT * FROM habits;" =
        ⟨{ db with habits := db.habits ++
            [[.text t, .text d, .text (pyStr r), .text (pyStr n)]] },
          db.habits ++ [[.text t, .text d, .text (pyStr r), .text (pyStr n)]], none⟩ ∧
      pyStr true = "True" ∧ pyStr false = "False" := by
  have hdup := no_dup_any_false db t hfresh
  refine ⟨?_, ?_, rfl, rfl⟩
  · rw [habit_add_eq db t d r n htab ht hd, if_neg hdup]
  · unfold exec_sql
    rw [sqliteExec_selectAll _ (show "habits" ∈
        ({ db with habits := db.habits ++
            [[SqlValue.text t, .text d, .text (pyStr r), .text (pyStr n)]] } : DB).tables
      from htab)]

/-- Claim C10, witness: a concrete add with require True and negative
False stores the TEXT values True and False, and the raw SELECT
observes them. -/
theorem c10_witness :
    habit_add dbReady "read" "" true false =
        (({ dbReady with habits := dbReady.habits ++
            [[.text "read", .text "", .text (pyStr true), .text (pyStr false)]] } : DB), none) ∧
      exec_sql ({ dbReady with habits := dbReady.habits ++
            [[.text "read", .text "", .text (pyStr true), .text (pyStr false)]] } : DB)
          "SELECT * FROM habits;" =
        ⟨{ dbReady with habits := dbReady.habits ++
            [[.text "read", .text "", .text (pyStr true), .text (pyStr false)]] },
          dbReady.habits ++ [[.text "read", .text "", .text (pyStr true), .text (pyStr false)]],
          none⟩ ∧
      pyStr true = "True" ∧ pyStr false = "False" :=
  c10_bools_stored_as_text dbReady "read" "" true false (by decide) (by decide) (by decide)
    (fun row hrow => absurd hrow (List.not_mem_nil row))

end HabitsTracker
